import Mathlib

/-!
Verification of the field-extraction engine of `app/extractor.py`
(class `FieldExtractor`): pattern-based field extraction, value
validation, IBAN checksum validation, rule loading/reload, and the
accessor `get_all_patterns`.

Modelling conventions:
* Python strings are modelled as `List Char`; `chars` converts a Lean
  string literal to that representation.
* Python's `re` engine is modelled by a small regular-expression type
  `RE` together with a backtracking matcher `run` that enumerates match
  results in Python's priority order (alternation: left first; `*`, `+`,
  `?`, `{m,n}`: greedy).  Patterns that the source compiles with
  `re.IGNORECASE` are embedded with case-folded character classes.
  Case folding and character classes are modelled over the letters the
  rule language actually uses (ASCII plus the German umlauts).
* A pattern string that would raise `re.error` at use is modelled by the
  constructor `RegexSrc.malformed`; the `try/except` blocks of the
  source then map it to the sentinel result (`none` / `false`).
-/

def chars (s : String) : List Char := s.data

/-- Case table used to model `str.lower()` / `str.upper()` and
`re.IGNORECASE` folding: ASCII letters plus the German umlauts that occur
in the default rule set.  (`lower`, `upper`) pairs. -/
def caseTable : List (Char × Char) :=
  [('a', 'A'), ('b', 'B'), ('c', 'C'), ('d', 'D'), ('e', 'E'), ('f', 'F'),
   ('g', 'G'), ('h', 'H'), ('i', 'I'), ('j', 'J'), ('k', 'K'), ('l', 'L'),
   ('m', 'M'), ('n', 'N'), ('o', 'O'), ('p', 'P'), ('q', 'Q'), ('r', 'R'),
   ('s', 'S'), ('t', 'T'), ('u', 'U'), ('v', 'V'), ('w', 'W'), ('x', 'X'),
   ('y', 'Y'), ('z', 'Z'), ('ä', 'Ä'), ('ö', 'Ö'), ('ü', 'Ü')]

/-- Model of Python `str.upper()` on a single character. -/
def upperChar (c : Char) : Char :=
  match caseTable.find? (fun p => p.1 == c) with
  | some p => p.2
  | none => c

/-- Model of Python `str.lower()` on a single character (used for
`re.IGNORECASE` folding). -/
def lowerChar (c : Char) : Char :=
  match caseTable.find? (fun p => p.2 == c) with
  | some p => p.1
  | none => c

/-- Python's `\s` class / `str.strip()` whitespace (ASCII part). -/
def isPySpace (c : Char) : Bool :=
  c == ' ' || c == '\t' || c == '\n' || c == '\r' || c == '\x0b' || c == '\x0c'

/-- Python's `\d` class (ASCII part): the decimal digits. -/
def isDigitC (c : Char) : Bool := '0' ≤ c && c ≤ '9'

/-- The class `[A-Z]`. -/
def isUpperAZ (c : Char) : Bool := 'A' ≤ c && c ≤ 'Z'

/-- The class `[A-Z0-9]`. -/
def isAZ09 (c : Char) : Bool := isUpperAZ c || isDigitC c

/-- Python `str.strip()`: drop leading and trailing whitespace. -/
def pyStrip (s : List Char) : List Char :=
  ((s.dropWhile isPySpace).reverse.dropWhile isPySpace).reverse

/-- Model of Python `int(str)` restricted to the strings reachable in
`validate_iban` (no sign, no underscores): surrounding whitespace is
tolerated, and the result is `none` (a `ValueError`) unless the remainder
is a non-empty digit string. -/
def pyInt (s : List Char) : Option Nat :=
  let t := pyStrip s
  if t ≠ [] ∧ t.all isDigitC then
    some (t.foldl (fun n c => n * 10 + (c.toNat - 48)) 0)
  else none

/-- Regular expressions, as far as the patterns of this repository need:
character classes, sequencing, alternation, greedy star, one capturing
group, and the end anchor `$` (no-`MULTILINE` semantics: end of string or
just before a final newline).  Counted and optional repetition are
derived forms. -/
inductive RE where
  | eps
  | cls (p : Char → Bool)
  | seq (a b : RE)
  | alt (a b : RE)
  | star (r : RE)
  | group (r : RE)
  | eos

/-- Structural size of a regex, used to bound the matcher's fuel. -/
def reSize : RE → Nat
  | .eps => 1
  | .cls _ => 1
  | .eos => 1
  | .seq a b => reSize a + reSize b + 1
  | .alt a b => reSize a + reSize b + 1
  | .star r => reSize r + 1
  | .group r => reSize r + 1

/-- Backtracking matcher.  `run fuel r s cap` returns, in Python's
backtracking priority order, every way `r` can match a prefix of `s`:
each result is the remaining suffix paired with the current value of
capturing group 1.  Greedy `star` tries the longer match first and (like
Python) stops iterating when the body consumes nothing.  The fuel only
serves termination; `runTop` supplies enough fuel that it never runs out
(every recursive call strictly decreases `(reSize r + 1) * (length s + 1)`,
so the call depth is bounded by that product). -/
def run : Nat → RE → List Char → Option (List Char) →
    List (List Char × Option (List Char))
  | 0, _, _, _ => []
  | _ + 1, .eps, s, c => [(s, c)]
  | _ + 1, .cls _, [], _ => []
  | _ + 1, .cls p, x :: xs, c => if p x then [(xs, c)] else []
  | f + 1, .seq a b, s, c => (run f a s c).flatMap fun q => run f b q.1 q.2
  | f + 1, .alt a b, s, c => run f a s c ++ run f b s c
  | f + 1, .group r, s, c =>
      (run f r s c).map fun q => (q.1, some (s.take (s.length - q.1.length)))
  | f + 1, .star r, s, c =>
      ((run f r s c).flatMap fun q =>
        if q.1.length < s.length then run f (.star r) q.1 q.2 else [q])
      ++ [(s, c)]
  | _ + 1, .eos, s, c =>
      if s = [] ∨ s = ['\n'] then [(s, c)] else []

/-- Run a regex at the current position with adequate fuel. -/
def runTop (r : RE) (s : List Char) : List (List Char × Option (List Char)) :=
  run ((reSize r + 1) * (s.length + 1) + 1) r s none

/-- The first (highest-priority) match of `r` at the current position:
`some cap` with `cap` the value of group 1, or `none` when `r` does not
match here.  This is the match `re` commits to when one exists at this
position. -/
def firstMatch (r : RE) (s : List Char) : Option (Option (List Char)) :=
  (runTop r s).head?.map (fun q => q.2)

/-- Model of `re.search`: try each position left to right, committing to
the leftmost position at which the pattern matches.  Returns the value of
capturing group 1 of that match (`some none` when the match used no
group). -/
def reSearch (r : RE) : List Char → Option (Option (List Char))
  | [] => firstMatch r []
  | c :: cs =>
    match firstMatch r (c :: cs) with
    | some cap => some cap
    | none => reSearch r cs

/-- Model of `bool(re.match(pat, s))`: does the pattern match anchored at
the start of the string (position 0 only)? -/
def pyMatchB (r : RE) (s : List Char) : Bool :=
  !(runTop r s).isEmpty

/-- Case-insensitive literal character (`c` given in lowercase), as
compiled under `re.IGNORECASE`. -/
def ciChar (c : Char) : RE := .cls (fun x => lowerChar x == c)

/-- Case-insensitive literal word. -/
def litCI : List Char → RE
  | [] => .eps
  | c :: cs => .seq (ciChar c) (litCI cs)

/-- `r?` (greedy: presence preferred). -/
def reOpt (r : RE) : RE := .alt r .eps

/-- `r+` = `r r*`. -/
def rePlus (r : RE) : RE := .seq r (.star r)

/-- `r{n}`: exactly `n` copies. -/
def repExact : Nat → RE → RE
  | 0, _ => .eps
  | n + 1, r => .seq r (repExact n r)

/-- `r{0,n}`, greedy: more copies preferred. -/
def repUpTo : Nat → RE → RE
  | 0, _ => .eps
  | n + 1, r => .alt (.seq r (repUpTo n r)) .eps

/-- `r{lo,hi}`, greedy. -/
def repRange (lo hi : Nat) (r : RE) : RE :=
  .seq (repExact lo r) (repUpTo (hi - lo) r)

/-! ## The rule store data model

A loaded rule set (`self.patterns`) is a mapping from field name to a
rule entry; a rule entry is a Python dict read with `.get('pattern')` and
`.get('validation')`.  `none` in `pattern`/`validation` models a missing
(or falsy, i.e. empty-string) key, which is exactly what the source's
`if not pattern:` / `if not validation_pattern:` tests select. -/

/-- A pattern string as the engine sees it when it uses it: either it
compiles to a regex, or using it raises `re.error`. -/
inductive RegexSrc where
  | ok (r : RE)
  | malformed

/-- One rule entry of `self.patterns`.  Extraction patterns are embedded
as compiled under `re.IGNORECASE` (which `extract_field` always adds);
validation patterns as compiled with no flags (`validate_value` uses
plain `re.match`). -/
structure Rule where
  pattern : Option RegexSrc
  validation : Option RegexSrc
  description : String := ""

/-- `self.patterns`, as a name → rule association list (Python dict). -/
abbrev PatternMap : Type := List (String × Rule)

/-- Python `field_name in self.patterns` / `self.patterns[field_name]`
lookup. -/
def lookupRule : PatternMap → String → Option Rule
  | [], _ => none
  | (k, r) :: rest, f => if k == f then some r else lookupRule rest f

/-- `FieldExtractor.extract_field` (extractor.py lines 79–117): unknown
field → `None`; missing/falsy pattern → `None`; `re.error` → `None`;
otherwise `re.search(pattern, text, re.IGNORECASE | re.MULTILINE)`, and on
a match `match.group(1).strip()`.  A match in which group 1 did not
participate gives `match.group(1) = None`, whose `.strip()` raises and is
caught by the blanket `except` → `None`. -/
def extract_field (pats : PatternMap) (text : List Char) (field : String) :
    Option (List Char) :=
  match lookupRule pats field with
  | none => none
  | some rule =>
    match rule.pattern with
    | none => none
    | some .malformed => none
    | some (.ok r) =>
      match reSearch r text with
      | none => none
      | some none => none
      | some (some g) => some (pyStrip g)

/-- `FieldExtractor.extract_all_fields` (lines 119–138): iterate the rule
names, extract each, and keep a field only when `if value:` holds — i.e.
only when the extracted string is non-empty (Python truthiness). -/
def extract_all_fields (pats : PatternMap) (text : List Char) :
    List (String × List Char) :=
  pats.filterMap fun kv =>
    match extract_field pats text kv.1 with
    | some v => if v.isEmpty then none else some (kv.1, v)
    | none => none

/-- `FieldExtractor.validate_value` (lines 140–165): unknown field →
`False`; no (or falsy) validation pattern → `True`; otherwise
`bool(re.match(validation_pattern, value))`, with `re.error` caught →
`False`. -/
def validate_value (pats : PatternMap) (field : String) (value : List Char) :
    Bool :=
  match lookupRule pats field with
  | none => false
  | some rule =>
    match rule.validation with
    | none => true
    | some .malformed => false
    | some (.ok r) => pyMatchB r value

/-! ## IBAN validation -/

/-- The structural gate of `validate_iban`:
`re.match(r'^[A-Z]{2}\d{2}[A-Z0-9]{1,30}$', iban)` with no flags.  The
leading `^` is the position-0 anchor that `re.match` enforces anyway;
`$` is the no-`MULTILINE` end anchor (`RE.eos`). -/
def ibanStructRE : RE :=
  .seq (repExact 2 (.cls isUpperAZ))
    (.seq (repExact 2 (.cls isDigitC))
      (.seq (repRange 1 30 (.cls isAZ09)) .eos))

/-- Python `char.isalpha()`, restricted to the alphabet of the model
(ASCII letters and German umlauts; only `[A-Z]` is reachable past the
structural gate). -/
def isPyAlpha (c : Char) : Bool :=
  ('A' ≤ c && c ≤ 'Z') || ('a' ≤ c && c ≤ 'z') ||
  c == 'ä' || c == 'ö' || c == 'ü' || c == 'Ä' || c == 'Ö' || c == 'Ü' || c == 'ß'

/-- Decimal digit characters of `n` (Python `str()` of a non-negative
int). -/
def natDigitsAux : Nat → Nat → List Char
  | 0, _ => []
  | f + 1, n =>
    if n < 10 then [Char.ofNat (48 + n)]
    else natDigitsAux f (n / 10) ++ [Char.ofNat (48 + n % 10)]

def natDigits (n : Nat) : List Char := natDigitsAux (n + 1) n

/-- The letter substitution of `validate_iban`: an alphabetic character
becomes the decimal digits of `ord(char) - ord('A') + 10`; every other
character passes through. -/
def substChar (c : Char) : List Char :=
  if isPyAlpha c then natDigits (c.toNat + 10 - 'A'.toNat) else [c]

/-- `iban.replace(' ', '').upper()` — the normalisation step of
`validate_iban`.  Note the source removes only the space character
`' '`, not other whitespace. -/
def normSpaces (s : List Char) : List Char :=
  (s.filter (fun c => !(c == ' '))).map upperChar

/-- `validate_iban` after its normalisation step: structural regex gate,
rearrange first 4 characters to the end, letter substitution, then
`int(numeric) % 97 == 1` with `ValueError` caught → `False`. -/
def ibanAfterNorm (s : List Char) : Bool :=
  if pyMatchB ibanStructRE s then
    let rearranged := s.drop 4 ++ s.take 4
    let numeric := (rearranged.map substChar).flatten
    match pyInt numeric with
    | some n => n % 97 == 1
    | none => false
  else false

/-- `FieldExtractor.validate_iban` (lines 167–200). -/
def validate_iban (iban : List Char) : Bool :=
  ibanAfterNorm (normSpaces iban)

/-! ## Rule loading -/

/-- The class `[A-Z0-9]` under `re.IGNORECASE`. -/
def ciAZ09 (c : Char) : Bool :=
  isUpperAZ c || ('a' ≤ c && c ≤ 'z') || isDigitC c

def defaultRechnungsnummerRE : RE :=
  -- (?i)(?:rechnung(?:s)?(?:nummer|nr\.?)?|invoice(?:\s+)?(?:number|no\.?)?|rg\.?\s?nr\.?)
  --     [:\s]*([A-Z0-9][A-Z0-9\-._/]*[A-Z0-9]|[A-Z0-9])
  .seq
    (.alt
      (.seq (litCI (chars "rechnung"))
        (.seq (reOpt (litCI (chars "s")))
          (reOpt (.alt (litCI (chars "nummer"))
            (.seq (litCI (chars "nr")) (reOpt (ciChar '.')))))))
      (.alt
        (.seq (litCI (chars "invoice"))
          (.seq (reOpt (rePlus (.cls isPySpace)))
            (reOpt (.alt (litCI (chars "number"))
              (.seq (litCI (chars "no")) (reOpt (ciChar '.')))))))
        (.seq (litCI (chars "rg"))
          (.seq (reOpt (ciChar '.'))
            (.seq (reOpt (.cls isPySpace))
              (.seq (litCI (chars "nr")) (reOpt (ciChar '.'))))))))
    (.seq (.star (.cls (fun c => c == ':' || isPySpace c)))
      (.group (.alt
        (.seq (.cls ciAZ09)
          (.seq (.star (.cls (fun c => ciAZ09 c || c == '-' || c == '.' ||
            c == '_' || c == '/')))
            (.cls ciAZ09)))
        (.cls ciAZ09))))

def defaultZahlungszielRE : RE :=
  -- (?i)(?:zahlbar\s+bis|fällig\s+am|zahlungsziel|due\s+date|payment\s+due)
  --     [:\s]*(\d{1,2}\.?\d{1,2}\.?\d{2,4}|\d{2,4}-\d{1,2}-\d{1,2})
  .seq
    (.alt
      (.seq (litCI (chars "zahlbar"))
        (.seq (rePlus (.cls isPySpace)) (litCI (chars "bis"))))
      (.alt
        (.seq (litCI (chars "fällig"))
          (.seq (rePlus (.cls isPySpace)) (litCI (chars "am"))))
        (.alt (litCI (chars "zahlungsziel"))
          (.alt
            (.seq (litCI (chars "due"))
              (.seq (rePlus (.cls isPySpace)) (litCI (chars "date"))))
            (.seq (litCI (chars "payment"))
              (.seq (rePlus (.cls isPySpace)) (litCI (chars "due"))))))))
    (.seq (.star (.cls (fun c => c == ':' || isPySpace c)))
      (.group (.alt
        (.seq (repRange 1 2 (.cls isDigitC))
          (.seq (reOpt (ciChar '.'))
            (.seq (repRange 1 2 (.cls isDigitC))
              (.seq (reOpt (ciChar '.')) (repRange 2 4 (.cls isDigitC))))))
        (.seq (repRange 2 4 (.cls isDigitC))
          (.seq (ciChar '-')
            (.seq (repRange 1 2 (.cls isDigitC))
              (.seq (ciChar '-') (repRange 1 2 (.cls isDigitC)))))))))

def defaultBetragRE : RE :=
  -- (?i)(?:(?:rechnungs)?(?:betrag|summe)|(?:total|gesamt)(?:betrag|summe)?|amount)
  --     [:\s]*(?:EUR|€)?\s*(\d{1,3}(?:[.,]\d{3})*[.,]\d{2})
  .seq
    (.alt
      (.seq (reOpt (litCI (chars "rechnungs")))
        (.alt (litCI (chars "betrag")) (litCI (chars "summe"))))
      (.alt
        (.seq (.alt (litCI (chars "total")) (litCI (chars "gesamt")))
          (reOpt (.alt (litCI (chars "betrag")) (litCI (chars "summe")))))
        (litCI (chars "amount"))))
    (.seq (.star (.cls (fun c => c == ':' || isPySpace c)))
      (.seq (reOpt (.alt (litCI (chars "eur")) (ciChar '€')))
        (.seq (.star (.cls isPySpace))
          (.group (.seq (repRange 1 3 (.cls isDigitC))
            (.seq (.star (.seq (.cls (fun c => c == '.' || c == ','))
              (repExact 3 (.cls isDigitC))))
              (.seq (.cls (fun c => c == '.' || c == ','))
                (repExact 2 (.cls isDigitC)))))))))

/-- `FieldExtractor._get_default_patterns` (lines 49–77): the built-in
default rule set.  The three pattern strings are embedded above as
compiled under `re.IGNORECASE` (as `extract_field` applies them); none of
the entries carries a `validation` key. -/
def defaultRechnungsnummerRule : Rule :=
  { pattern := some (.ok defaultRechnungsnummerRE), validation := none,
    description := "Erkennt Rechnungsnummern" }

def defaultZahlungszielRule : Rule :=
  { pattern := some (.ok defaultZahlungszielRE), validation := none,
    description := "Erkennt Zahlungstermine" }

def defaultBetragRule : Rule :=
  { pattern := some (.ok defaultBetragRE), validation := none,
    description := "Erkennt Rechnungsbeträge" }

def default_patterns : PatternMap :=
  [("rechnungsnummer", defaultRechnungsnummerRule),
   ("zahlungsziel", defaultZahlungszielRule),
   ("betrag", defaultBetragRule)]

/-- The possible states of the rule source as `load_patterns` can
encounter them: the file is absent (`Path.exists` is false), opening or
reading it raises, `yaml.safe_load` raises, or parsing succeeds — with
`parsed none` modelling a document that parses to YAML null (Python
`None`). -/
inductive RuleSource where
  | absent
  | unreadable
  | parseError
  | parsed (v : Option PatternMap)

/-- `FieldExtractor.load_patterns` (lines 29–47): absent file → default
patterns; any exception while reading/parsing (the blanket `except`) →
default patterns; a successful parse stores `yaml.safe_load(f) or {}`,
so a null document becomes the empty rule set.  The function is total:
no failure escapes it. -/
def load_patterns : RuleSource → PatternMap
  | .absent => default_patterns
  | .unreadable => default_patterns
  | .parseError => default_patterns
  | .parsed none => []
  | .parsed (some m) => m

/-- `FieldExtractor.reload_patterns` (lines 231–248): runs
`load_patterns` inside a `try`, returning `True` on success and `False`
if the `try` body raised.  The body (`len`, `load_patterns`, `len`) is
total in the model — `load_patterns` catches every failure internally —
so the `False` branch has no corresponding case. -/
def reload_patterns (st : PatternMap) (src : RuleSource) :
    Bool × PatternMap :=
  let _old_count := st.length
  let newPats := load_patterns src
  let _new_count := newPats.length
  (true, newPats)

/-! ## The fixture rule set of the spec's testable properties
(`sample_patterns` in tests/test_extractor.py) -/

/-- `Rechnung(?:snummer)?:?\s*([A-Z0-9-]+)`, compiled under
`re.IGNORECASE` as `extract_field` applies it. -/
def rechnungsnummerTestPat : RE :=
  .seq (litCI (chars "rechnung"))
    (.seq (reOpt (litCI (chars "snummer")))
      (.seq (reOpt (ciChar ':'))
        (.seq (.star (.cls isPySpace))
          (.group (rePlus (.cls (fun c =>
            isUpperAZ c || ('a' ≤ c && c ≤ 'z') || isDigitC c || c == '-')))))))

/-- `^[A-Z0-9-]+$`, compiled with no flags as `validate_value` applies
it via `re.match` (the leading `^` is the position-0 anchor that
`re.match` enforces anyway). -/
def rechnungsnummerTestValidation : RE :=
  .seq (rePlus (.cls (fun c => isUpperAZ c || isDigitC c || c == '-'))) .eos

/-- `Betrag:?\s*(\d+[.,]\d{2})`, compiled under `re.IGNORECASE`. -/
def betragTestPat : RE :=
  .seq (litCI (chars "betrag"))
    (.seq (reOpt (ciChar ':'))
      (.seq (.star (.cls isPySpace))
        (.group (.seq (rePlus (.cls isDigitC))
          (.seq (.cls (fun c => c == '.' || c == ','))
            (repExact 2 (.cls isDigitC)))))))

/-- The `sample_patterns` fixture rule set of the repository's tests,
which is also the rule set of the spec's pattern-search and
validation-pattern fixtures. -/
def rechnungsnummerTestRule : Rule :=
  { pattern := some (.ok rechnungsnummerTestPat),
    validation := some (.ok rechnungsnummerTestValidation),
    description := "Test-Pattern für Rechnungsnummer" }

def betragTestRule : Rule :=
  { pattern := some (.ok betragTestPat), validation := none,
    description := "Test-Pattern für Betrag" }

def sample_patterns : PatternMap :=
  [("rechnungsnummer", rechnungsnummerTestRule), ("betrag", betragTestRule)]

/-! ## Object-identity model for `get_all_patterns`

`get_all_patterns` returns `self.patterns.copy()` — a new top-level dict
whose values are the *same* rule-entry objects.  To reason about what a
caller's mutations can reach, dicts are given object identity through an
explicit heap: the store's `self.patterns` is a reference to a dict
object whose entries reference rule objects. -/

inductive PyObj where
  | dictObj (entries : List (String × Nat))
  | ruleObj (r : Rule)

abbrev Heap : Type := List (Nat × PyObj)

/-- Dereference. -/
def heapGet : Heap → Nat → Option PyObj
  | [], _ => none
  | (k, v) :: rest, r => if k == r then some v else heapGet rest r

/-- In-place mutation of the object at `r` (newest binding shadows). -/
def heapSet (h : Heap) (r : Nat) (v : PyObj) : Heap := (r, v) :: h

/-- An unused reference: larger than every allocated one. -/
def freshRef (h : Heap) : Nat :=
  (h.map (fun p => p.1)).foldr Nat.max 0 + 1

/-- A `FieldExtractor` whose `self.patterns` attribute is the dict object
at `patternsRef`. -/
structure ExtractorObj where
  heap : Heap
  patternsRef : Nat

/-- Read one dict entry down to a rule value. -/
def derefEntry (h : Heap) (kv : String × Nat) : Option (String × Rule) :=
  match heapGet h kv.2 with
  | some (.ruleObj r) => some (kv.1, r)
  | _ => none

/-- The rule set the extractor currently observes through
`self.patterns`: the behaviour of every subsequent `extract_field` /
`validate_value` / `get_pattern_info` call is a function of this value. -/
def derefRules (h : Heap) (dref : Nat) : PatternMap :=
  match heapGet h dref with
  | some (.dictObj entries) => entries.filterMap (derefEntry h)
  | _ => []

/-- What `extract_field` observes on the heap-backed extractor state. -/
def obsExtract (st : ExtractorObj) (text : List Char) (field : String) :
    Option (List Char) :=
  extract_field (derefRules st.heap st.patternsRef) text field

/-- `FieldExtractor.get_all_patterns` (lines 214–216):
`return self.patterns.copy()` — allocate a new dict object with the same
entries (same rule-object references) and return a reference to it.
(The fallback arm is unreachable when `patternsRef` holds a dict.) -/
def get_all_patterns (st : ExtractorObj) : Nat × ExtractorObj :=
  match heapGet st.heap st.patternsRef with
  | some (.dictObj entries) =>
    let r := freshRef st.heap
    (r, { st with heap := heapSet st.heap r (.dictObj entries) })
  | _ => (st.patternsRef, st)

example : pyMatchB (litCI (chars "ab")) (chars "ABc") = true := by decide
example : reSearch (rePlus (.cls isDigitC)) (chars "x12y3") =
    some none := by decide
example : reSearch (.group (rePlus (.cls isDigitC))) (chars "x12y3") =
    some (some (chars "12")) := by decide
example : reSearch (.seq (.group (rePlus (.cls isDigitC))) .eos)
    (chars "x12y3") = some (some (chars "3")) := by decide
example : pyMatchB (.seq (rePlus (.cls isAZ09)) .eos) (chars "AB═") = false := by
  decide

/-! ## Auxiliary inputs used by counterexamples and witnesses -/

/-- The normalisation as claim C4 (and spec §4.4 step 1) words it:
strip **all** whitespace, uppercase.  Stated from the spec's words, for
comparison with the source's `normSpaces` (which removes only `' '`). -/
def stripAllWsUpper (s : List Char) : List Char :=
  (s.filter (fun c => !(isPySpace c))).map upperChar

/-- A rule whose pattern `(a*)` can capture the empty string. -/
def starARule : Rule :=
  { pattern := some (.ok (.group (.star (.cls (fun c => c == 'a'))))),
    validation := none }

def c3pats : PatternMap := [("x", starARule)]

/-- A rule extracting a digit run: `(\d+)`. -/
def digitRule : Rule :=
  { pattern := some (.ok (.group (rePlus (.cls isDigitC)))), validation := none }

/-- A rule entry after a caller has overwritten its pattern with a falsy
value. -/
def emptyRule : Rule := { pattern := none, validation := none }

/-- A rule whose validation pattern raises `re.error`. -/
def malformedValidationRule : Rule :=
  { pattern := none, validation := some .malformed }

/-- Extractor state: `self.patterns` is the dict at ref 0 with the single
field `x` whose rule object lives at ref 1. -/
def c9heap : Heap := [(0, .dictObj [("x", 1)]), (1, .ruleObj digitRule)]

def c9st : ExtractorObj := { heap := c9heap, patternsRef := 0 }

/-! ## Helper lemmas -/

theorem caseTable_snd_not_key :
    ∀ p ∈ caseTable, caseTable.find? (fun q => q.1 == p.2) = none := by decide

theorem caseTable_no_space :
    ∀ p ∈ caseTable, p.1 ≠ ' ' ∧ p.2 ≠ ' ' := by decide

theorem upperChar_upperChar (c : Char) :
    upperChar (upperChar c) = upperChar c := by
  cases h : caseTable.find? (fun p => p.1 == c) with
  | none =>
    have hc : upperChar c = c := by unfold upperChar; rw [h]
    rw [hc, hc]
  | some p =>
    have hc : upperChar c = p.2 := by unfold upperChar; rw [h]
    have h2 := caseTable_snd_not_key p (List.mem_of_find?_eq_some h)
    rw [hc]; unfold upperChar; rw [h2]

theorem upperChar_eq_space_iff (c : Char) : upperChar c = ' ' ↔ c = ' ' := by
  cases h : caseTable.find? (fun p => p.1 == c) with
  | none =>
    have hc : upperChar c = c := by unfold upperChar; rw [h]
    rw [hc]
  | some p =>
    have hc : upperChar c = p.2 := by unfold upperChar; rw [h]
    have hmem := List.mem_of_find?_eq_some h
    have hpc : p.1 = c := by
      have hb := List.find?_some h
      exact eq_of_beq hb
    have hsp := caseTable_no_space p hmem
    rw [hc]
    constructor
    · intro hh; exact absurd hh hsp.2
    · intro hh; rw [← hpc] at hh; exact absurd hh hsp.1

theorem upperChar_beq_space (c : Char) : (upperChar c == ' ') = (c == ' ') := by
  by_cases h : c = ' '
  · subst h; rfl
  · have h2 : upperChar c ≠ ' ' := fun hh => h ((upperChar_eq_space_iff c).mp hh)
    simp [h, h2]

/-- The source's normalisation `replace(' ', '').upper()` is idempotent. -/
theorem normSpaces_idem (s : List Char) :
    normSpaces (normSpaces s) = normSpaces s := by
  unfold normSpaces
  rw [List.filter_map]
  have h1 : (s.filter (fun c => !(c == ' '))).filter
      ((fun c => !(c == ' ')) ∘ upperChar) =
      (s.filter (fun c => !(c == ' '))).filter (fun c => !(c == ' ')) := by
    apply List.filter_congr
    intro x _
    simp only [Function.comp_apply, upperChar_beq_space]
  rw [h1, List.filter_filter]
  have h2 : ∀ l : List Char, l.filter (fun a => !(a == ' ') && !(a == ' ')) =
      l.filter (fun c => !(c == ' ')) := by
    intro l; apply List.filter_congr; intro x _; simp
  rw [h2, List.map_map]
  apply List.map_congr_left
  intro x _
  exact upperChar_upperChar x

theorem lookupRule_mem {pats : PatternMap} {f : String} {r : Rule}
    (h : lookupRule pats f = some r) : (f, r) ∈ pats := by
  induction pats with
  | nil => cases h
  | cons kv rest ih =>
    obtain ⟨k, v⟩ := kv
    by_cases hk : (k == f) = true
    · rw [lookupRule, if_pos hk] at h
      injection h with h
      subst h
      have : k = f := eq_of_beq hk
      subst this
      exact List.mem_cons_self _ _
    · rw [lookupRule, if_neg hk] at h
      exact List.mem_cons_of_mem _ (ih h)

theorem extract_field_lookup_some {pats : PatternMap} {text : List Char}
    {f : String} {v : List Char} (h : extract_field pats text f = some v) :
    ∃ r, lookupRule pats f = some r := by
  cases hl : lookupRule pats f with
  | none => simp [extract_field, hl] at h
  | some r => exact ⟨r, rfl⟩

theorem heapGet_heapSet_self (h : Heap) (x : Nat) (v : PyObj) :
    heapGet (heapSet h x v) x = some v := by
  simp [heapGet, heapSet]

theorem heapGet_heapSet_ne (h : Heap) (x r : Nat) (v : PyObj) (hne : r ≠ x) :
    heapGet (heapSet h x v) r = heapGet h r := by
  have hx : (x == r) = false := by simp [Ne.symm hne]
  simp [heapGet, heapSet, hx]

theorem heapGet_eq_none_of_not_mem (h : Heap) (r : Nat)
    (hr : ∀ kv ∈ h, kv.1 ≠ r) : heapGet h r = none := by
  induction h with
  | nil => rfl
  | cons kv rest ih =>
    obtain ⟨k, v⟩ := kv
    have hk : (k == r) = false := by
      simp [hr (k, v) (List.mem_cons_self _ _)]
    rw [heapGet, hk]
    exact ih (fun kv2 hm => hr kv2 (List.mem_cons_of_mem _ hm))

theorem le_foldr_max {l : List Nat} {x : Nat} (hx : x ∈ l) :
    x ≤ l.foldr Nat.max 0 := by
  induction l with
  | nil => cases hx
  | cons a t ih =>
    rw [List.foldr_cons]
    rcases List.mem_cons.mp hx with rfl | hm
    · exact Nat.le_max_left _ _
    · exact Nat.le_trans (ih hm) (Nat.le_max_right _ _)

theorem heapGet_freshRef (h : Heap) : heapGet h (freshRef h) = none := by
  apply heapGet_eq_none_of_not_mem
  intro kv hm
  have h2 : kv.1 ≤ (h.map (fun p => p.1)).foldr Nat.max 0 :=
    le_foldr_max (List.mem_map_of_mem _ hm)
  unfold freshRef
  omega

theorem derefEntry_heapSet_dict (h : Heap) (x : Nat)
    (es : List (String × Nat)) (hx : ∀ r, heapGet h x ≠ some (.ruleObj r))
    (kv : String × Nat) :
    derefEntry (heapSet h x (.dictObj es)) kv = derefEntry h kv := by
  by_cases hk : kv.2 = x
  · unfold derefEntry
    rw [hk, heapGet_heapSet_self]
    cases hg : heapGet h x with
    | none => rfl
    | some o =>
      cases o with
      | dictObj es2 => rfl
      | ruleObj r => exact absurd hg (hx r)
  · unfold derefEntry
    rw [heapGet_heapSet_ne _ _ _ _ hk]

theorem derefRules_heapSet_dict (h : Heap) (x p : Nat)
    (es : List (String × Nat)) (hpx : p ≠ x)
    (hx : ∀ r, heapGet h x ≠ some (.ruleObj r)) :
    derefRules (heapSet h x (.dictObj es)) p = derefRules h p := by
  unfold derefRules
  rw [heapGet_heapSet_ne _ _ _ _ hpx]
  cases hg : heapGet h p with
  | none => rfl
  | some o =>
    cases o with
    | ruleObj r => rfl
    | dictObj entries =>
      have he : derefEntry (heapSet h x (.dictObj es)) = derefEntry h :=
        funext (derefEntry_heapSet_dict h x es hx)
      rw [he]

/-! ## Claims -/

/-- C1: `validate_iban` implements the structural + mod-97 checksum
algorithm (normalise, structural regex gate, move the first 4 characters
to the end, substitute letters by `ord(c) - ord('A') + 10`, test the
arbitrary-precision integer value of the digit string `mod 97 == 1`) and
yields exactly the fixture verdicts. -/
theorem validate_iban_checksum_fixtures :
    validate_iban (chars "DE89370400440532013000") = true ∧
    validate_iban (chars "GB29NWBK60161331926819") = true ∧
    validate_iban (chars "DE89370400440532013001") = false ∧
    validate_iban (chars "NOT_AN_IBAN") = false :=
  ⟨by decide, by decide, by decide, by decide⟩

/-- C2: on a match `extract_field` returns the content of capturing
group 1 with surrounding whitespace stripped; when several matches exist
it commits to the first (leftmost) one — a match at the current position
takes priority over any later position; and on the spec's fixture rule
`Rechnung(?:snummer)?:?\s*([A-Z0-9-]+)` the three fixture inputs give
exactly the fixture results. -/
theorem extract_field_first_match_group1 :
    (∀ (pats : PatternMap) (text : List Char) (f : String) (rule : Rule)
      (r : RE) (g : List Char),
      lookupRule pats f = some rule → rule.pattern = some (.ok r) →
      reSearch r text = some (some g) →
      extract_field pats text f = some (pyStrip g)) ∧
    (∀ (r : RE) (s : List Char) (cap : Option (List Char)),
      firstMatch r s = some cap → reSearch r s = some cap) ∧
    extract_field sample_patterns (chars "Rechnungsnummer: RG-2024-001")
      "rechnungsnummer" = some (chars "RG-2024-001") ∧
    extract_field sample_patterns (chars "Invoice Number: INV-456")
      "rechnungsnummer" = none ∧
    extract_field sample_patterns
      (chars "Erste Rechnung: RG-001\nZweite Rechnung: RG-002")
      "rechnungsnummer" = some (chars "RG-001") := by
  refine ⟨?_, ?_, by decide, by decide, by decide⟩
  · intro pats text f rule r g h1 h2 h3
    simp [extract_field, h1, h2, h3]
  · intro r s cap h
    cases s with
    | nil => simpa [reSearch] using h
    | cons c cs => simp [reSearch, h]

theorem extract_field_first_match_group1_witness :
    extract_field sample_patterns (chars "Rechnung RG123") "rechnungsnummer" =
      some (pyStrip (chars "RG123")) :=
  extract_field_first_match_group1.1 sample_patterns (chars "Rechnung RG123")
    "rechnungsnummer" rechnungsnummerTestRule rechnungsnummerTestPat
    (chars "RG123") rfl rfl (by decide)

/-- C3 counterexample: with the rule `x ↦ (a*)` on the text `"b"`,
`extract_field` returns a value (the empty string: group 1 matched the
empty string and `.strip()` keeps it empty), yet `extract_all_fields`
omits the field — Python's `if value:` drops falsy (empty) extractions,
so the claimed "contains iff Extract returns a value" fails. -/
theorem extract_all_omits_empty_extraction :
    extract_field c3pats (chars "b") "x" = some [] ∧
    extract_all_fields c3pats (chars "b") = [] ∧
    ("x", ([] : List Char)) ∉ extract_all_fields c3pats (chars "b") :=
  ⟨by decide, by decide, by decide⟩

/-- C3 amended: `extract_all_fields` contains `(f, v)` iff
`extract_field` on the same text returns `some v` **and `v` is
non-empty** (Python truthiness); found-but-empty fields are omitted too,
and the result is exactly that filtered set. -/
theorem extract_all_fields_mem_iff (pats : PatternMap) (text : List Char)
    (f : String) (v : List Char) :
    (f, v) ∈ extract_all_fields pats text ↔
      extract_field pats text f = some v ∧ v ≠ [] := by
  unfold extract_all_fields
  rw [List.mem_filterMap]
  constructor
  · rintro ⟨kv, hmem, hkv⟩
    cases he : extract_field pats text kv.1 with
    | none => rw [he] at hkv; simp at hkv
    | some w =>
      rw [he] at hkv
      by_cases hw : w.isEmpty
      · simp [hw] at hkv
      · simp only [hw, Bool.false_eq_true, if_false, Option.some.injEq,
          Prod.mk.injEq] at hkv
        obtain ⟨h1, h2⟩ := hkv
        subst h1
        subst h2
        refine ⟨he, ?_⟩
        simpa using hw
  · rintro ⟨he, hv⟩
    obtain ⟨rule, hl⟩ := extract_field_lookup_some he
    refine ⟨(f, rule), lookupRule_mem hl, ?_⟩
    simp [he, hv]

/-- C4 counterexample: `validate_iban` strips only the space character,
not all whitespace: on `"DE89\t370400440532013000"` the tab survives
normalisation and fails the structural gate, while the claimed
strip-all-whitespace normalisation (`stripAllWsUpper`) of the same input
is a valid IBAN. -/
theorem validate_iban_tab_counterexample :
    validate_iban (chars "DE89\t370400440532013000") = false ∧
    validate_iban (stripAllWsUpper (chars "DE89\t370400440532013000")) = true ∧
    validate_iban (chars "DE89\t370400440532013000") ≠
      validate_iban (stripAllWsUpper (chars "DE89\t370400440532013000")) :=
  ⟨by decide, by decide, by decide⟩

/-- C4 amended: the normalisation the source actually performs is
`replace(' ', '').upper()` — only spaces are removed.  For every string,
`validate_iban` is invariant under that normalisation. -/
theorem validate_iban_space_normalization (v : List Char) :
    validate_iban v = validate_iban (normSpaces v) := by
  unfold validate_iban
  rw [normSpaces_idem]

/-- C5: for a field name with no rule, `extract_field` returns `None`
and `validate_value` returns `False` (no exception: both are total
functions of the model). -/
theorem unknown_field_extract_none_validate_false (pats : PatternMap)
    (f : String) (h : lookupRule pats f = none) :
    (∀ text, extract_field pats text f = none) ∧
    (∀ v, validate_value pats f v = false) := by
  constructor
  · intro text; simp [extract_field, h]
  · intro v; simp [validate_value, h]

theorem unknown_field_extract_none_validate_false_witness :
    lookupRule sample_patterns "unknown" = none ∧
    extract_field sample_patterns (chars "Text") "unknown" = none ∧
    validate_value sample_patterns "unknown" (chars "value") = false :=
  ⟨rfl,
   (unknown_field_extract_none_validate_false sample_patterns "unknown" rfl).1
     (chars "Text"),
   (unknown_field_extract_none_validate_false sample_patterns "unknown" rfl).2
     (chars "value")⟩

/-- C6: a rule present in the rule set but carrying no
`validation_pattern` validates every value. -/
theorem no_validation_always_valid (pats : PatternMap) (f : String)
    (rule : Rule) (v : List Char) (h1 : lookupRule pats f = some rule)
    (h2 : rule.validation = none) :
    validate_value pats f v = true := by
  simp [validate_value, h1, h2]

theorem no_validation_always_valid_witness :
    validate_value default_patterns "betrag" (chars "any_value") = true :=
  no_validation_always_valid default_patterns "betrag" defaultBetragRule
    (chars "any_value") rfl rfl

/-- C7: with a validation pattern present, `validate_value` is exactly
`bool(re.match(pattern, value))` — a match anchored at position 0
(prefix semantics: the last two conjuncts exhibit a value the pattern
matches somewhere but not at the start, which is rejected); a malformed
validation pattern yields `false`; and the spec's validation fixtures
hold. -/
theorem validate_value_match_anchored :
    (∀ (pats : PatternMap) (f : String) (v : List Char) (rule : Rule) (r : RE),
      lookupRule pats f = some rule → rule.validation = some (.ok r) →
      validate_value pats f v = pyMatchB r v) ∧
    (∀ (pats : PatternMap) (f : String) (v : List Char) (rule : Rule),
      lookupRule pats f = some rule → rule.validation = some .malformed →
      validate_value pats f v = false) ∧
    validate_value sample_patterns "rechnungsnummer" (chars "RG-123") = true ∧
    validate_value sample_patterns "rechnungsnummer" (chars "invalid!") = false ∧
    validate_value sample_patterns "rechnungsnummer" (chars "x RG-123") = false ∧
    reSearch rechnungsnummerTestValidation (chars "x RG-123") ≠ none := by
  refine ⟨?_, ?_, by decide, by decide, by decide, by decide⟩
  · intro pats f v rule r h1 h2
    simp [validate_value, h1, h2]
  · intro pats f v rule h1 h2
    simp [validate_value, h1, h2]

theorem validate_value_match_anchored_witness :
    validate_value sample_patterns "rechnungsnummer" (chars "RG-123") =
      pyMatchB rechnungsnummerTestValidation (chars "RG-123") ∧
    validate_value [("bad", malformedValidationRule)] "bad" (chars "x") =
      false :=
  ⟨validate_value_match_anchored.1 sample_patterns "rechnungsnummer"
      (chars "RG-123") rechnungsnummerTestRule rechnungsnummerTestValidation
      rfl rfl,
   validate_value_match_anchored.2.1 [("bad", malformedValidationRule)] "bad"
      (chars "x") malformedValidationRule rfl rfl⟩

/-- C8: `load_patterns` never raises (it is a total function of the
source state): an absent, unreadable, or unparsable source yields the
built-in default rule set, which contains the invoice-number
(`rechnungsnummer`), due-date (`zahlungsziel`) and amount (`betrag`)
rules; a source that parses to null gives zero rules, not an error. -/
theorem load_patterns_fallback_defaults :
    load_patterns .absent = default_patterns ∧
    load_patterns .unreadable = default_patterns ∧
    load_patterns .parseError = default_patterns ∧
    load_patterns (.parsed none) = [] ∧
    (lookupRule default_patterns "rechnungsnummer").isSome = true ∧
    (lookupRule default_patterns "zahlungsziel").isSome = true ∧
    (lookupRule default_patterns "betrag").isSome = true :=
  ⟨rfl, rfl, rfl, rfl, rfl, rfl, rfl⟩

/-- C9 counterexample: `get_all_patterns` is a *shallow* copy.  The
returned dict exposes the shared rule object (ref 1); overwriting that
rule's pattern through the copy changes what a subsequent
`extract_field` on the store observes (from `some "7"` to `none`), so
the claim that no mutation on the returned structure can change the
store's state fails. -/
theorem get_all_patterns_nested_mutation_leaks :
    obsExtract c9st (chars "7") "x" = some (chars "7") ∧
    heapGet (get_all_patterns c9st).2.heap (get_all_patterns c9st).1 =
      some (.dictObj [("x", 1)]) ∧
    obsExtract
      { heap := heapSet (get_all_patterns c9st).2.heap 1 (.ruleObj emptyRule),
        patternsRef := (get_all_patterns c9st).2.patternsRef }
      (chars "7") "x" = none :=
  ⟨by decide, rfl, by decide⟩

/-- C9 amended: `get_all_patterns` returns a *new* top-level dict object
(the fresh reference differs from the store's), the copy itself leaves
the store's observable rule set unchanged, and any caller mutation of
the returned dict object itself (replacing its entries arbitrarily)
still leaves the store's observable rule set unchanged — but the rule
entries are shared, so only the top level is protected. -/
theorem get_all_patterns_shallow_copy (st : ExtractorObj)
    (entries : List (String × Nat))
    (hd : heapGet st.heap st.patternsRef = some (.dictObj entries)) :
    (get_all_patterns st).1 ≠ st.patternsRef ∧
    (get_all_patterns st).2.patternsRef = st.patternsRef ∧
    derefRules (get_all_patterns st).2.heap st.patternsRef =
      derefRules st.heap st.patternsRef ∧
    ∀ newEntries, derefRules
      (heapSet (get_all_patterns st).2.heap (get_all_patterns st).1
        (.dictObj newEntries)) st.patternsRef =
      derefRules st.heap st.patternsRef := by
  have hfresh : heapGet st.heap (freshRef st.heap) = none :=
    heapGet_freshRef st.heap
  have hne : freshRef st.heap ≠ st.patternsRef := by
    intro he; rw [he, hd] at hfresh; cases hfresh
  have hga : get_all_patterns st = (freshRef st.heap,
      { st with
        heap := heapSet st.heap (freshRef st.heap) (.dictObj entries) }) := by
    unfold get_all_patterns; rw [hd]
  rw [hga]
  refine ⟨hne, rfl, ?_, ?_⟩
  · exact derefRules_heapSet_dict _ _ _ _ (Ne.symm hne)
      (fun r hr => by rw [hfresh] at hr; cases hr)
  · intro newEntries
    have step1 : derefRules
        (heapSet (heapSet st.heap (freshRef st.heap) (.dictObj entries))
          (freshRef st.heap) (.dictObj newEntries)) st.patternsRef =
        derefRules (heapSet st.heap (freshRef st.heap) (.dictObj entries))
          st.patternsRef := by
      apply derefRules_heapSet_dict _ _ _ _ (Ne.symm hne)
      intro r hr
      rw [heapGet_heapSet_self] at hr; cases hr
    rw [step1]
    exact derefRules_heapSet_dict _ _ _ _ (Ne.symm hne)
      (fun r hr => by rw [hfresh] at hr; cases hr)

theorem get_all_patterns_shallow_copy_witness :
    (get_all_patterns c9st).1 ≠ c9st.patternsRef ∧
    derefRules (heapSet (get_all_patterns c9st).2.heap
      (get_all_patterns c9st).1 (.dictObj [])) c9st.patternsRef =
      derefRules c9st.heap c9st.patternsRef :=
  ⟨(get_all_patterns_shallow_copy c9st [("x", 1)] rfl).1,
   (get_all_patterns_shallow_copy c9st [("x", 1)] rfl).2.2.2 []⟩

/-- C10: `reload_patterns` reports success for every state of the
pattern source — its `try` body is total because `load_patterns`
converts every failure into the default-rule fallback internally — and
it replaces the rule set with whatever `load_patterns` produced. -/
theorem reload_patterns_always_true (st : PatternMap) (src : RuleSource) :
    (reload_patterns st src).1 = true ∧
    (reload_patterns st src).2 = load_patterns src :=
  ⟨rfl, rfl⟩
